import Mathlib

/-!
Verification of the OpenSeadragon DrawerBase module (src/drawerbase.js):
a shallow embedding of the render-backend base class, its construction-time
validation and override enforcement, the viewport-to-drawer coordinate
transforms, and the device-pixel surface sizing.

Numbers are modelled as exact rationals; a second model with explicit
non-finite values (NaN, plus or minus infinity) is used for the claims
about degenerate numeric inputs.
-/

namespace DrawerBase

/-- Point value type: a pair of coordinates (OpenSeadragon.Point). -/
structure Point where
  x : ℚ
  y : ℚ
deriving DecidableEq, Repr

/-- Rect value type: position and size (OpenSeadragon.Rect). -/
structure Rect where
  x : ℚ
  y : ℚ
  width : ℚ
  height : ℚ
deriving DecidableEq, Repr

/-- Modelled from the spec: the external Rect value type exposes the top-left
corner of the rectangle (rect.js is not part of the sources here; the spec
describes obtaining the top-left point of the rectangle). -/
def Rect.getTopLeft (r : Rect) : Point := ⟨r.x, r.y⟩

/-- Modelled from the spec: the external Rect value type exposes the size of
the rectangle as a point (width, height). -/
def Rect.getSize (r : Rect) : Point := ⟨r.width, r.height⟩

/-- The viewport collaborator, consumed as a capability: projection of points
and size deltas ignoring rotation, and the logical container size. -/
structure Viewport where
  pixelFromPointNoRotate : Point → Bool → Point
  deltaPixelsFromPointsNoRotate : Point → Bool → Point
  getContainerSize : Point

/-- JavaScript Math.round for a finite number: floor of x + 1/2
(half-way cases round toward positive infinity). -/
def jsRound (q : ℚ) : ℤ := ⌊q + 1 / 2⌋

/-- Embedding of DrawerBase.prototype.viewportToDrawerRectangle: project the
top-left of the rectangle and its size through the rotation-ignoring viewport
projections, then scale all four components by the pixel density ratio. -/
def viewportToDrawerRectangle (viewport : Viewport) (pixelDensity : ℚ)
    (rectangle : Rect) : Rect :=
  let topLeft := viewport.pixelFromPointNoRotate rectangle.getTopLeft true
  let size := viewport.deltaPixelsFromPointsNoRotate rectangle.getSize true
  ⟨topLeft.x * pixelDensity,
   topLeft.y * pixelDensity,
   size.x * pixelDensity,
   size.y * pixelDensity⟩

/-- Embedding of DrawerBase.prototype.viewportCoordToDrawerCoord: project the
point through the rotation-ignoring projection and scale by the pixel
density ratio. -/
def viewportCoordToDrawerCoord (viewport : Viewport) (pixelDensity : ℚ)
    (point : Point) : Point :=
  let vpPoint := viewport.pixelFromPointNoRotate point true
  ⟨vpPoint.x * pixelDensity, vpPoint.y * pixelDensity⟩

/-- Embedding of DrawerBase.prototype._calculateCanvasSize: read the logical
container size from the viewport, scale each axis by the pixel density ratio
and round each axis independently to an integer with Math.round. -/
def calculateCanvasSize (viewport : Viewport) (pixelDensity : ℚ) : ℤ × ℤ :=
  let viewportSize := viewport.getContainerSize
  (jsRound (viewportSize.x * pixelDensity), jsRound (viewportSize.y * pixelDensity))

/-- The owning viewer, consumed only for its useCanvas flag in this module. -/
structure Viewer where
  useCanvas : Bool

/-- An opaque DOM element reference (the container element). -/
structure Element where
  elemId : ℕ
deriving DecidableEq

/-- An opaque legacy tile-source reference (options.source is rejected with a
console error but does not abort construction). -/
structure Source where
  sourceId : ℕ
deriving DecidableEq

/-- The debugGridColor option as supplied by the caller: a single color
string, a truthy array of color strings, or a falsy value (absent,
undefined, null, false, zero).  A string is recognized first by the code
(typeof check), so even an empty string is taken as a string. -/
inductive DebugGridColorOpt where
  | colorString (s : String)
  | colorList (l : List String)
  | falsy
deriving DecidableEq

/-- The options object of the DrawerBase constructor. -/
structure DrawerOptions where
  viewer : Option Viewer
  viewport : Option Viewport
  element : Option Element
  source : Option Source
  debugGridColor : DebugGridColorOpt

/-- Constructor arguments: either a plain options object, or the legacy
positional form (source, viewport, element).  The distinction embeds the
isPlainObject test of the source: a positional first argument is not a plain
object ($.isPlainObject is external to this module). -/
inductive CtorArgs where
  | plain (o : DrawerOptions)
  | positional (src : Option Source) (vp : Option Viewport) (el : Option Element)

/-- The value of options.viewer read on the raw first argument, before any
normalization (line 48 of the source runs on the unnormalized argument).  A
positional first argument is a tile source, not an options object, and
carries no viewer field. -/
def rawViewer : CtorArgs → Option Viewer
  | .plain o => o.viewer
  | .positional _ _ _ => none

/-- Normalization of the constructor arguments into the options shape: the
legacy positional arguments become { source, viewport, element } with no
viewer and no debugGridColor. -/
def normalizeArgs : CtorArgs → DrawerOptions
  | .plain o => o
  | .positional s v e => ⟨none, v, e, s, .falsy⟩

/-- Embedding of the debugGridColor line of the constructor:
typeof debugGridColor is a string, then wrap it in a one-element array;
otherwise take the supplied value when truthy, else the process-wide default
($.DEFAULT_SETTINGS.debugGridColor, passed here as a parameter). -/
def normalizeDebugGridColor (o : DebugGridColorOpt) (defaultColor : List String) :
    List String :=
  match o with
  | .colorString s => [s]
  | .colorList l => l
  | .falsy => defaultColor

/-- Which of the five required operations a concrete backend has overridden:
a field is true when the bound operation of the instance differs from the
placeholder on DrawerBase.prototype. -/
structure APIOverrides where
  draw : Bool
  canRotate : Bool
  destroy : Bool
  clear : Bool
  setImageSmoothingEnabled : Bool
deriving DecidableEq

/-- All five required operations are overridden. -/
def overridesAll (o : APIOverrides) : Bool :=
  o.draw && o.canRotate && o.destroy && o.clear && o.setImageSmoothingEnabled

/-- Embedding of DrawerBase.prototype._checkForAPIOverrides: compare each
bound operation with the base placeholder, in source order, and throw a
message naming the first operation that is still the placeholder. -/
def checkForAPIOverrides (o : APIOverrides) : Except String Unit :=
  if o.draw = false then
    .error "[drawer].draw must be implemented by child class"
  else if o.canRotate = false then
    .error "[drawer].canRotate must be implemented by child class"
  else if o.destroy = false then
    .error "[drawer].destroy must be implemented by child class"
  else if o.clear = false then
    .error "[drawer].clear must be implemented by child class"
  else if o.setImageSmoothingEnabled = false then
    .error "[drawer].setImageSmoothingEnabled must be implemented by child class"
  else
    .ok ()

/-- The constructed backend instance: the fields assigned by the DrawerBase
constructor that this module reasons about. -/
structure Drawer where
  viewer : Viewer
  viewport : Viewport
  debugGridColor : List String
  container : Element
  canvasSize : Option (ℤ × ℤ)
  imageSmoothingEnabled : Bool

/-- Embedding of the DrawerBase constructor.  Modelled from the spec:
$.console.assert is external to this module and the spec states that a
missing viewer, viewport or container fails fast with an assertion-style
error, so the assertions are modelled as throwing on a falsy condition.
Order follows the source: assert options.viewer on the raw argument,
normalize positional arguments, assert viewport and element, assign fields
(debugGridColor normalization, canvas sizing when canvas is used), and
finally _checkForAPIOverrides. -/
def constructDrawer (supportsCanvas : Bool) (pixelDensity : ℚ)
    (defaultDebugGridColor : List String) (args : CtorArgs)
    (ovr : APIOverrides) : Except String Drawer :=
  match rawViewer args with
  | none => .error "[Drawer] options.viewer is required"
  | some viewer =>
    let options := normalizeArgs args
    match options.viewport with
    | none => .error "[Drawer] options.viewport is required"
    | some viewport =>
      match options.element with
      | none => .error "[Drawer] options.element is required"
      | some element =>
        let debugGridColor :=
          normalizeDebugGridColor options.debugGridColor defaultDebugGridColor
        let useCanvas := supportsCanvas && viewer.useCanvas
        let canvasSize :=
          if useCanvas then some (calculateCanvasSize viewport pixelDensity)
          else none
        match checkForAPIOverrides ovr with
        | .error e => .error e
        | .ok _ =>
          .ok ⟨viewer, viewport, debugGridColor, element, canvasSize, true⟩

/-- Modelled from the spec: the spec describes normalization as happening
before the validation of the required references.  This variant normalizes
first and then validates viewer, viewport and element on the normalized
options; it is compared with constructDrawer (the embedding of the code)
for the refinement claim about legacy positional construction. -/
def constructDrawerNormalizeFirst (supportsCanvas : Bool) (pixelDensity : ℚ)
    (defaultDebugGridColor : List String) (args : CtorArgs)
    (ovr : APIOverrides) : Except String Drawer :=
  let options := normalizeArgs args
  match options.viewer with
  | none => .error "[Drawer] options.viewer is required"
  | some viewer =>
    match options.viewport with
    | none => .error "[Drawer] options.viewport is required"
    | some viewport =>
      match options.element with
      | none => .error "[Drawer] options.element is required"
      | some element =>
        let debugGridColor :=
          normalizeDebugGridColor options.debugGridColor defaultDebugGridColor
        let useCanvas := supportsCanvas && viewer.useCanvas
        let canvasSize :=
          if useCanvas then some (calculateCanvasSize viewport pixelDensity)
          else none
        match checkForAPIOverrides ovr with
        | .error e => .error e
        | .ok _ =>
          .ok ⟨viewer, viewport, debugGridColor, element, canvasSize, true⟩

/-- Embedding of Object.defineProperty: a property descriptor with an
optional getter and an optional setter.  The isOpenSeadragonDrawer property
is defined with a getter only, so its setter slot is empty. -/
structure PropDescriptor (I : Type) (α : Type) where
  getter : Option (I → α)
  setter : Option (I → α → I)

/-- Reading a property through its descriptor: apply the getter when there is
one. -/
def PropDescriptor.read {I α : Type} (p : PropDescriptor I α) (inst : I) :
    Option α :=
  p.getter.map (fun g => g inst)

/-- Assigning to a property through its descriptor: apply the setter when
there is one; with no setter the assignment has no effect on the instance. -/
def PropDescriptor.write {I α : Type} (p : PropDescriptor I α) (inst : I)
    (v : α) : Option I :=
  p.setter.map (fun s => s inst v)

/-- Embedding of the isOpenSeadragonDrawer capability marker: defined on the
prototype with a getter returning true and no setter. -/
def isOpenSeadragonDrawerProp : PropDescriptor Drawer Bool :=
  ⟨some (fun _ => true), none⟩

/-- The mutable state visible to the transform operations: the viewport
reference of the backend, the process-wide pixel density ratio, and the
remaining backend fields.  Used to embed the transforms as explicit
state-passing functions. -/
structure DrawerRunState where
  viewport : Viewport
  pixelDensity : ℚ
  debugGridColor : List String
  canvasSize : Option (ℤ × ℤ)
  imageSmoothingEnabled : Bool

/-- State-passing embedding of viewportToDrawerRectangle: the body only reads
this.viewport and the pixel density ratio and performs no assignment, so the
state is returned as received. -/
def viewportToDrawerRectangleRun (st : DrawerRunState) (rectangle : Rect) :
    Rect × DrawerRunState :=
  (viewportToDrawerRectangle st.viewport st.pixelDensity rectangle, st)

/-- State-passing embedding of viewportCoordToDrawerCoord: the body only
reads this.viewport and the pixel density ratio and performs no assignment,
so the state is returned as received. -/
def viewportCoordToDrawerCoordRun (st : DrawerRunState) (point : Point) :
    Point × DrawerRunState :=
  (viewportCoordToDrawerCoord st.viewport st.pixelDensity point, st)

/-- A JavaScript number for the claims about degenerate inputs: a finite
value, NaN, or a signed infinity (pos true is positive infinity). -/
inductive JSNum where
  | fin (q : ℚ)
  | nan
  | inf (pos : Bool)
deriving DecidableEq, Repr

/-- JavaScript multiplication on JSNum: NaN absorbs, infinity times zero is
NaN, infinity times a nonzero finite value or an infinity follows the sign
rule. -/
def JSNum.mul : JSNum → JSNum → JSNum
  | .nan, _ => .nan
  | _, .nan => .nan
  | .fin a, .fin b => .fin (a * b)
  | .inf p, .fin b => if b = 0 then .nan else .inf (p == decide (0 < b))
  | .fin a, .inf p => if a = 0 then .nan else .inf (p == decide (0 < a))
  | .inf p, .inf q => .inf (p == q)

/-- A JSNum is finite when it carries a rational value. -/
def JSNum.isFinite : JSNum → Bool
  | .fin _ => true
  | _ => false

/-- JavaScript Math.round on JSNum: rounds a finite value (half toward
positive infinity) and passes NaN and the infinities through unchanged. -/
def jsRoundN : JSNum → JSNum
  | .fin q => .fin ((jsRound q : ℤ) : ℚ)
  | x => x

/-- Point with JavaScript-number coordinates. -/
structure PointN where
  x : JSNum
  y : JSNum
deriving DecidableEq, Repr

/-- Rect with JavaScript-number components. -/
structure RectN where
  x : JSNum
  y : JSNum
  width : JSNum
  height : JSNum
deriving DecidableEq, Repr

/-- Top-left corner of a RectN. -/
def RectN.getTopLeft (r : RectN) : PointN := ⟨r.x, r.y⟩

/-- Size of a RectN as a point. -/
def RectN.getSize (r : RectN) : PointN := ⟨r.width, r.height⟩

/-- The viewport collaborator over JavaScript numbers. -/
structure ViewportN where
  pixelFromPointNoRotate : PointN → Bool → PointN
  deltaPixelsFromPointsNoRotate : PointN → Bool → PointN
  getContainerSize : PointN

/-- viewportCoordToDrawerCoord over JavaScript numbers: same code path as the
rational embedding, with JavaScript multiplication. -/
def viewportCoordToDrawerCoordN (viewport : ViewportN) (pixelDensity : JSNum)
    (point : PointN) : PointN :=
  let vpPoint := viewport.pixelFromPointNoRotate point true
  ⟨vpPoint.x.mul pixelDensity, vpPoint.y.mul pixelDensity⟩

/-- viewportToDrawerRectangle over JavaScript numbers. -/
def viewportToDrawerRectangleN (viewport : ViewportN) (pixelDensity : JSNum)
    (rectangle : RectN) : RectN :=
  let topLeft := viewport.pixelFromPointNoRotate rectangle.getTopLeft true
  let size := viewport.deltaPixelsFromPointsNoRotate rectangle.getSize true
  ⟨topLeft.x.mul pixelDensity,
   topLeft.y.mul pixelDensity,
   size.x.mul pixelDensity,
   size.y.mul pixelDensity⟩

/-- _calculateCanvasSize over JavaScript numbers. -/
def calculateCanvasSizeN (viewport : ViewportN) (pixelDensity : JSNum) :
    PointN :=
  let viewportSize := viewport.getContainerSize
  ⟨jsRoundN (viewportSize.x.mul pixelDensity),
   jsRoundN (viewportSize.y.mul pixelDensity)⟩

/-- The error string names an operation the concrete backend failed to
override. -/
def NamesMissingOp (o : APIOverrides) (s : String) : Prop :=
  (o.draw = false ∧ s = "[drawer].draw must be implemented by child class") ∨
  (o.canRotate = false ∧
    s = "[drawer].canRotate must be implemented by child class") ∨
  (o.destroy = false ∧
    s = "[drawer].destroy must be implemented by child class") ∨
  (o.clear = false ∧
    s = "[drawer].clear must be implemented by child class") ∨
  (o.setImageSmoothingEnabled = false ∧
    s = "[drawer].setImageSmoothingEnabled must be implemented by child class")

/-- A fixed concrete viewport used by concrete instances: identity
projections and a container of logical size 800.4 by 600.6. -/
def idViewport : Viewport :=
  ⟨fun p _ => p, fun p _ => p, ⟨800.4, 600.6⟩⟩

/-- A concrete viewer for concrete instances. -/
def viewerT : Viewer := ⟨true⟩

/-- A concrete container element for concrete instances. -/
def elem0 : Element := ⟨0⟩

/-- A plain options object carrying all required references and a string
debugGridColor. -/
def goodOptions : DrawerOptions :=
  ⟨some viewerT, some idViewport, some elem0, none, .colorString "red"⟩

/-- Constructor arguments for a fully configured plain-options call. -/
def goodArgs : CtorArgs := .plain goodOptions

/-- A concrete backend overriding all five required operations. -/
def ovrAll : APIOverrides := ⟨true, true, true, true, true⟩

/-- A concrete backend that did not override draw. -/
def ovrNoDraw : APIOverrides := ⟨false, true, true, true, true⟩

/-- The instance that construction with goodArgs at density 2 returns. -/
def goodDrawer : Drawer :=
  ⟨viewerT, idViewport, ["red"], elem0,
   some (calculateCanvasSize idViewport 2), true⟩

/-- Legacy positional arguments with viewport and element but, necessarily,
no viewer. -/
def noViewerArgs : CtorArgs := .positional none (some idViewport) (some elem0)

/-- A viewport over JavaScript numbers whose projections and container size
are all NaN. -/
def nanViewportN : ViewportN :=
  ⟨fun _ _ => ⟨.nan, .nan⟩, fun _ _ => ⟨.nan, .nan⟩, ⟨.nan, .nan⟩⟩

/-- The viewer assertion of the source reads the raw first argument, yet its
condition always agrees with the viewer field of the normalized options: a
plain options object is left unchanged and the positional form never carries
a viewer. -/
theorem rawViewer_eq_normalized (args : CtorArgs) :
    rawViewer args = (normalizeArgs args).viewer := by
  cases args <;> rfl

/-- The override check succeeds exactly when all five required operations are
overridden. -/
theorem checkForAPIOverrides_ok_iff (o : APIOverrides) :
    checkForAPIOverrides o = .ok () ↔ overridesAll o = true := by
  rcases o with ⟨d, c, de, cl, si⟩
  cases d <;> cases c <;> cases de <;> cases cl <;> cases si <;>
    simp [checkForAPIOverrides, overridesAll]

/-- Multiplying a non-finite JavaScript number by anything stays
non-finite. -/
theorem JSNum.mul_nonFinite_left (a b : JSNum) (h : a.isFinite = false) :
    (a.mul b).isFinite = false := by
  cases a with
  | fin q => simp [JSNum.isFinite] at h
  | nan => cases b <;> rfl
  | inf p =>
    cases b with
    | fin q =>
      simp only [JSNum.mul]
      split <;> rfl
    | nan => rfl
    | inf q => rfl

/-- Math.round keeps a non-finite JavaScript number non-finite. -/
theorem jsRoundN_nonFinite (x : JSNum) (h : x.isFinite = false) :
    (jsRoundN x).isFinite = false := by
  cases x <;> simp_all [jsRoundN, JSNum.isFinite]

/-- Claim C2: for any container logical size (w, h) and pixel density ratio
d, the computed surface device-pixel dimensions equal
(round(w * d), round(h * d)), each axis scaled and rounded independently; in
particular container size 800.4 by 600.6 at density 2 gives 1601 by 1201. -/
theorem calculateCanvasSize_rounds_each_axis :
    (∀ (vp : Viewport) (d : ℚ),
        calculateCanvasSize vp d =
          (⌊vp.getContainerSize.x * d + 1 / 2⌋,
           ⌊vp.getContainerSize.y * d + 1 / 2⌋)) ∧
    calculateCanvasSize idViewport 2 = (1601, 1201) := by
  constructor
  · intro vp d
    rfl
  · norm_num [calculateCanvasSize, jsRound, idViewport]

/-- Claim C3: viewportToDrawerRectangle projects the top-left of the
rectangle through pixelFromPointNoRotate and its size through
deltaPixelsFromPointsNoRotate, multiplies both position and size by the
pixel density ratio, and returns the exact products with no rounding. -/
theorem viewportToDrawerRectangle_projects_and_scales
    (vp : Viewport) (d : ℚ) (r : Rect) :
    viewportToDrawerRectangle vp d r =
      ⟨(vp.pixelFromPointNoRotate r.getTopLeft true).x * d,
       (vp.pixelFromPointNoRotate r.getTopLeft true).y * d,
       (vp.deltaPixelsFromPointsNoRotate r.getSize true).x * d,
       (vp.deltaPixelsFromPointsNoRotate r.getSize true).y * d⟩ := rfl

/-- Claim C5: with the viewport projection state held fixed,
viewportToDrawerRectangle is linear in the pixel density ratio: doubling the
density exactly doubles every position and size component of the result. -/
theorem viewportToDrawerRectangle_linear_in_density
    (vp : Viewport) (d : ℚ) (r : Rect) :
    viewportToDrawerRectangle vp (2 * d) r =
      ⟨2 * (viewportToDrawerRectangle vp d r).x,
       2 * (viewportToDrawerRectangle vp d r).y,
       2 * (viewportToDrawerRectangle vp d r).width,
       2 * (viewportToDrawerRectangle vp d r).height⟩ := by
  simp only [viewportToDrawerRectangle, Rect.mk.injEq]
  refine ⟨by ring, by ring, by ring, by ring⟩

/-- Claim C6: the transform operations are pure: they leave the whole
backend state (viewport, pixel density, remaining fields) unchanged, and a
repeated call on the resulting state returns the identical value. -/
theorem transform_operations_pure (st : DrawerRunState) (p : Point) (r : Rect) :
    (viewportCoordToDrawerCoordRun st p).2 = st ∧
    (viewportToDrawerRectangleRun st r).2 = st ∧
    (viewportCoordToDrawerCoordRun (viewportCoordToDrawerCoordRun st p).2 p).1 =
      (viewportCoordToDrawerCoordRun st p).1 ∧
    (viewportToDrawerRectangleRun (viewportToDrawerRectangleRun st r).2 r).1 =
      (viewportToDrawerRectangleRun st r).1 :=
  ⟨rfl, rfl, rfl, rfl⟩

/-- Claim C9: every backend instance reads the isOpenSeadragonDrawer
capability marker as true through its getter, and the property has no
setter, so an assignment never updates the instance. -/
theorem isOpenSeadragonDrawer_true_and_readonly (d : Drawer) (v : Bool) :
    isOpenSeadragonDrawerProp.read d = some true ∧
    isOpenSeadragonDrawerProp.write d v = none :=
  ⟨rfl, rfl⟩

/-- Successful construction implies: all three required references were
present, the override check passed, and the stored debugGridColor is the
normalized option value. -/
theorem constructDrawer_ok_inv (sc : Bool) (pd : ℚ) (dflt : List String)
    (args : CtorArgs) (ovr : APIOverrides) (d : Drawer)
    (h : constructDrawer sc pd dflt args ovr = .ok d) :
    (normalizeArgs args).viewer ≠ none ∧
    (normalizeArgs args).viewport ≠ none ∧
    (normalizeArgs args).element ≠ none ∧
    checkForAPIOverrides ovr = .ok () ∧
    d.debugGridColor =
      normalizeDebugGridColor (normalizeArgs args).debugGridColor dflt := by
  rcases args with ⟨vw, vp, el, src, dgc⟩ | ⟨s, v, e⟩
  · cases vw with
    | none => exact absurd h (by simp [constructDrawer, rawViewer])
    | some viewer =>
      cases vp with
      | none =>
        exact absurd h (by simp [constructDrawer, rawViewer, normalizeArgs])
      | some viewport =>
        cases el with
        | none =>
          exact absurd h (by simp [constructDrawer, rawViewer, normalizeArgs])
        | some element =>
          rcases hc : checkForAPIOverrides ovr with e | u
          · simp only [constructDrawer, rawViewer, normalizeArgs, hc] at h
            exact Except.noConfusion h
          · cases u
            simp only [constructDrawer, rawViewer, normalizeArgs, hc,
              Except.ok.injEq] at h
            subst h
            refine ⟨?_, ?_, ?_, ?_, rfl⟩
            · simp [normalizeArgs]
            · simp [normalizeArgs]
            · simp [normalizeArgs]
            · rfl
  · exact absurd h (by simp [constructDrawer, rawViewer])

/-- Claim C4: construction requires non-null viewer, viewport and container
references; whichever of them is missing first makes construction fail with
the assertion error naming it, and a successfully constructed instance had
all three present. -/
theorem construction_requires_viewer_viewport_element
    (sc : Bool) (pd : ℚ) (dflt : List String) (args : CtorArgs)
    (ovr : APIOverrides) :
    ((normalizeArgs args).viewer = none →
      constructDrawer sc pd dflt args ovr =
        .error "[Drawer] options.viewer is required") ∧
    ((normalizeArgs args).viewer ≠ none →
      (normalizeArgs args).viewport = none →
      constructDrawer sc pd dflt args ovr =
        .error "[Drawer] options.viewport is required") ∧
    ((normalizeArgs args).viewer ≠ none →
      (normalizeArgs args).viewport ≠ none →
      (normalizeArgs args).element = none →
      constructDrawer sc pd dflt args ovr =
        .error "[Drawer] options.element is required") ∧
    (∀ d, constructDrawer sc pd dflt args ovr = .ok d →
      (normalizeArgs args).viewer ≠ none ∧
      (normalizeArgs args).viewport ≠ none ∧
      (normalizeArgs args).element ≠ none) := by
  refine ⟨?_, ?_, ?_, ?_⟩
  · intro hv
    rcases args with ⟨vw, vp, el, src, dgc⟩ | ⟨s, v, e⟩
    · simp only [normalizeArgs] at hv
      simp [constructDrawer, rawViewer, hv]
    · simp [constructDrawer, rawViewer]
  · intro hv hp
    rcases args with ⟨vw, vp, el, src, dgc⟩ | ⟨s, v, e⟩
    · simp only [normalizeArgs] at hv hp
      rcases Option.ne_none_iff_exists.mp hv with ⟨viewer, hvw⟩
      simp [constructDrawer, rawViewer, normalizeArgs, ← hvw, hp]
    · simp only [normalizeArgs] at hv
      exact absurd rfl hv
  · intro hv hp he
    rcases args with ⟨vw, vp, el, src, dgc⟩ | ⟨s, v, e⟩
    · simp only [normalizeArgs] at hv hp he
      rcases Option.ne_none_iff_exists.mp hv with ⟨viewer, hvw⟩
      rcases Option.ne_none_iff_exists.mp hp with ⟨viewport, hvp⟩
      simp [constructDrawer, rawViewer, normalizeArgs, ← hvw, ← hvp, he]
    · simp only [normalizeArgs] at hv
      exact absurd rfl hv
  · intro d h
    rcases constructDrawer_ok_inv sc pd dflt args ovr d h with ⟨h1, h2, h3, _, _⟩
    exact ⟨h1, h2, h3⟩

/-- Claim C1: construction compares each of the five required operations
against the base placeholder; if any is still the placeholder, no instance
is ever returned and the check throws an error naming a missing operation. -/
theorem construction_rejects_missing_overrides
    (sc : Bool) (pd : ℚ) (dflt : List String) (args : CtorArgs)
    (ovr : APIOverrides) :
    (∀ d, constructDrawer sc pd dflt args ovr = .ok d →
      overridesAll ovr = true) ∧
    (overridesAll ovr = false →
      (∀ d, constructDrawer sc pd dflt args ovr ≠ .ok d) ∧
      ∃ s, checkForAPIOverrides ovr = .error s ∧ NamesMissingOp ovr s) := by
  have hok : ∀ d, constructDrawer sc pd dflt args ovr = .ok d →
      overridesAll ovr = true := by
    intro d h
    exact (checkForAPIOverrides_ok_iff ovr).mp
      (constructDrawer_ok_inv sc pd dflt args ovr d h).2.2.2.1
  refine ⟨hok, ?_⟩
  intro hmiss
  refine ⟨fun d h => by simp [hok d h] at hmiss, ?_⟩
  rcases ovr with ⟨od, oc, ode, ocl, osi⟩
  cases od
  · exact ⟨_, rfl, Or.inl ⟨rfl, rfl⟩⟩
  cases oc
  · exact ⟨_, rfl, Or.inr (Or.inl ⟨rfl, rfl⟩)⟩
  cases ode
  · exact ⟨_, rfl, Or.inr (Or.inr (Or.inl ⟨rfl, rfl⟩))⟩
  cases ocl
  · exact ⟨_, rfl, Or.inr (Or.inr (Or.inr (Or.inl ⟨rfl, rfl⟩)))⟩
  cases osi
  · exact ⟨_, rfl, Or.inr (Or.inr (Or.inr (Or.inr ⟨rfl, rfl⟩)))⟩
  · simp [overridesAll] at hmiss

/-- Claim C8: the legacy positional form is normalized into the options
shape, and construction behaves exactly as the variant that normalizes
first and then validates the required references on the normalized options
(for every argument form, positional or plain). -/
theorem legacy_positional_normalized_like_options
    (sc : Bool) (pd : ℚ) (dflt : List String) (args : CtorArgs)
    (ovr : APIOverrides) :
    constructDrawer sc pd dflt args ovr =
      constructDrawerNormalizeFirst sc pd dflt args ovr := by
  cases args <;> rfl

/-- Claim C10: the debugGridColor option is normalized at construction: a
string is wrapped into a one-element array, a falsy value is replaced by the
process-wide default, any other (truthy) value is stored unchanged, and the
constructed instance stores exactly the normalized value. -/
theorem debugGridColor_normalized_at_construction :
    (∀ (s : String) (dflt : List String),
      normalizeDebugGridColor (.colorString s) dflt = [s]) ∧
    (∀ (dflt : List String), normalizeDebugGridColor .falsy dflt = dflt) ∧
    (∀ (l : List String) (dflt : List String),
      normalizeDebugGridColor (.colorList l) dflt = l) ∧
    (∀ (sc : Bool) (pd : ℚ) (dflt : List String) (args : CtorArgs)
      (ovr : APIOverrides) (d : Drawer),
      constructDrawer sc pd dflt args ovr = .ok d →
      d.debugGridColor =
        normalizeDebugGridColor (normalizeArgs args).debugGridColor dflt) := by
  refine ⟨fun s dflt => rfl, fun dflt => rfl, fun l dflt => rfl, ?_⟩
  intro sc pd dflt args ovr d h
  exact (constructDrawer_ok_inv sc pd dflt args ovr d h).2.2.2.2

/-- Claim C7: the transform and sizing operations are total functions (the
embedding returns a value for every input instead of an error), and a
non-finite component produced by the viewport projection or present in the
container size propagates to the corresponding component of the result. -/
theorem transforms_propagate_nonfinite
    (vp : ViewportN) (pd : JSNum) (p : PointN) (r : RectN) :
    ((vp.pixelFromPointNoRotate p true).x.isFinite = false →
      (viewportCoordToDrawerCoordN vp pd p).x.isFinite = false) ∧
    ((vp.pixelFromPointNoRotate p true).y.isFinite = false →
      (viewportCoordToDrawerCoordN vp pd p).y.isFinite = false) ∧
    ((vp.pixelFromPointNoRotate r.getTopLeft true).x.isFinite = false →
      (viewportToDrawerRectangleN vp pd r).x.isFinite = false) ∧
    ((vp.pixelFromPointNoRotate r.getTopLeft true).y.isFinite = false →
      (viewportToDrawerRectangleN vp pd r).y.isFinite = false) ∧
    ((vp.deltaPixelsFromPointsNoRotate r.getSize true).x.isFinite = false →
      (viewportToDrawerRectangleN vp pd r).width.isFinite = false) ∧
    ((vp.deltaPixelsFromPointsNoRotate r.getSize true).y.isFinite = false →
      (viewportToDrawerRectangleN vp pd r).height.isFinite = false) ∧
    (vp.getContainerSize.x.isFinite = false →
      (calculateCanvasSizeN vp pd).x.isFinite = false) ∧
    (vp.getContainerSize.y.isFinite = false →
      (calculateCanvasSizeN vp pd).y.isFinite = false) :=
  ⟨fun h => JSNum.mul_nonFinite_left _ pd h,
   fun h => JSNum.mul_nonFinite_left _ pd h,
   fun h => JSNum.mul_nonFinite_left _ pd h,
   fun h => JSNum.mul_nonFinite_left _ pd h,
   fun h => JSNum.mul_nonFinite_left _ pd h,
   fun h => JSNum.mul_nonFinite_left _ pd h,
   fun h => jsRoundN_nonFinite _ (JSNum.mul_nonFinite_left _ pd h),
   fun h => jsRoundN_nonFinite _ (JSNum.mul_nonFinite_left _ pd h)⟩

/-- Witness for claim C1: a backend missing only draw never yields an
instance and the override check reports an error naming draw. -/
theorem construction_rejects_missing_overrides_witness :
    overridesAll ovrNoDraw = false ∧
    ((∀ d, constructDrawer true 1 [] goodArgs ovrNoDraw ≠ .ok d) ∧
      ∃ s, checkForAPIOverrides ovrNoDraw = .error s ∧
        NamesMissingOp ovrNoDraw s) :=
  ⟨rfl, (construction_rejects_missing_overrides true 1 [] goodArgs ovrNoDraw).2 rfl⟩

/-- Witness for claim C4: a positional call carries no viewer, so
construction fails with the assertion error naming the viewer. -/
theorem construction_requires_viewer_viewport_element_witness :
    (normalizeArgs noViewerArgs).viewer = none ∧
    constructDrawer true 1 [] noViewerArgs ovrAll =
      .error "[Drawer] options.viewer is required" :=
  ⟨rfl,
   (construction_requires_viewer_viewport_element true 1 [] noViewerArgs
     ovrAll).1 rfl⟩

/-- Witness for claim C7: a NaN projection result makes the drawer
coordinate NaN rather than raising. -/
theorem transforms_propagate_nonfinite_witness :
    (nanViewportN.pixelFromPointNoRotate ⟨.fin 0, .fin 0⟩ true).x.isFinite =
      false ∧
    (viewportCoordToDrawerCoordN nanViewportN (.fin 2)
      ⟨.fin 0, .fin 0⟩).x.isFinite = false :=
  ⟨rfl,
   (transforms_propagate_nonfinite nanViewportN (.fin 2) ⟨.fin 0, .fin 0⟩
     ⟨.fin 0, .fin 0, .fin 1, .fin 1⟩).1 rfl⟩

/-- Witness for claim C10: a successful construction with a string
debugGridColor stores the one-element array containing that string. -/
theorem debugGridColor_normalized_at_construction_witness :
    constructDrawer true 2 ["magenta"] goodArgs ovrAll = .ok goodDrawer ∧
    goodDrawer.debugGridColor =
      normalizeDebugGridColor (normalizeArgs goodArgs).debugGridColor
        ["magenta"] :=
  ⟨rfl,
   debugGridColor_normalized_at_construction.2.2.2 true 2 ["magenta"] goodArgs
     ovrAll goodDrawer rfl⟩

end DrawerBase
